import Mathlib

/-!
Verification of the buffer sink component (libavfilter/sink_buffer.c).

The file shallowly embeds the sink's data model and operations:

* A frame handle (AVFilterBufferRef in the source) is an opaque token; we
  model it as a natural number.  A nullable handle pointer is an Option.
* The byte-oriented FIFO (AVFifoBuffer, from libavutil/fifo.c, which is not
  part of the sources under verification) is modelled from the spec in
  whole-entry units: every transfer in sink_buffer.c moves exactly
  sizeof(AVFilterBufferRef *) bytes, so one list element stands for one
  stored handle and the capacity is counted in entries.
* Allocation outcomes (av_fifo_realloc2) are made explicit as a Boolean
  parameter; upstream collaborators (ff_request_frame, ff_poll_frame) are
  oracle parameters, since they live outside this component.
* Releases of frame handles (avfilter_unref_buffer) are recorded in a ghost
  list so that ownership claims are statable.

Machine-integer detail kept from the source: warning_limit is a C unsigned,
so its escalation multiplies modulo 2^32; AVERROR(e) is -e with the Linux
errno values EAGAIN = 11 and EINVAL = 22.
-/

set_option autoImplicit false

namespace SinkBuffer

/-- A frame handle: an opaque token for one decoded media unit.  The sink
never inspects it; it only moves ownership. -/
abbrev AVFilterBufferRef := Nat

/-- AVERROR(e) from libavutil: the negated errno value. -/
def AVERROR (e : Int) : Int := -e

/-- Linux errno value for EAGAIN, the would-block condition. -/
def EAGAIN : Int := 11

/-- Linux errno value for EINVAL, the invalid-state condition. -/
def EINVAL : Int := 22

/-- Flag bit AV_BUFFERSINK_FLAG_PEEK: return the head handle without
removing it from the queue. -/
def AV_BUFFERSINK_FLAG_PEEK : Nat := 1

/-- Flag bit AV_BUFFERSINK_FLAG_NO_REQUEST: do not ask the upstream
filterchain for a frame when the queue is empty. -/
def AV_BUFFERSINK_FLAG_NO_REQUEST : Nat := 2

/-- Modelled from the spec: the FIFO of frame references backing the queue
(AVFifoBuffer of libavutil/fifo.c, not among the sources under src/).  The
spec describes it as an ordered sequence backed by a storage block that is
grown when full; data lists the stored handles oldest first, capacity is
the storage size in whole entries. -/
structure AVFifoBuffer where
  data : List AVFilterBufferRef
  capacity : Nat
  deriving DecidableEq, Repr

/-- Modelled from the spec: av_fifo_size, the amount of data currently held,
in entry units (the source counts bytes and divides by the entry size). -/
def av_fifo_size (f : AVFifoBuffer) : Nat := f.data.length

/-- Modelled from the spec: av_fifo_space, the free room left, in entry
units. -/
def av_fifo_space (f : AVFifoBuffer) : Nat := f.capacity - f.data.length

/-- Modelled from the spec: av_fifo_alloc with a size of n entries yields an
empty FIFO of that capacity (the success path; allocation failure at
construction makes the whole sink fail to instantiate). -/
def av_fifo_alloc (n : Nat) : AVFifoBuffer := { data := [], capacity := n }

/-- Modelled from the spec: av_fifo_realloc2 grows the storage to new_size
entries (it never shrinks); allocOk records whether the reallocation
succeeded, none standing for the AVERROR(ENOMEM) return. -/
def av_fifo_realloc2 (f : AVFifoBuffer) (new_size : Nat) (allocOk : Bool) :
    Option AVFifoBuffer :=
  if allocOk then some { f with capacity := max f.capacity new_size } else none

/-- Modelled from the spec: av_fifo_generic_write of one whole entry appends
the handle at the tail.  The sink only calls it after ensuring at least one
entry of space. -/
def av_fifo_generic_write (f : AVFifoBuffer) (r : AVFilterBufferRef) :
    AVFifoBuffer :=
  { f with data := f.data ++ [r] }

/-- Modelled from the spec: av_fifo_generic_read of one whole entry removes
the oldest handle and yields it (the destination pointer's new value). -/
def av_fifo_generic_read (f : AVFifoBuffer) :
    Option AVFilterBufferRef × AVFifoBuffer :=
  (f.data.head?, { f with data := f.data.tail })

/-- Modelled from the spec: av_fifo_peek2 at offset 0 yields a pointer to
the oldest entry without removing it. -/
def av_fifo_peek2 (f : AVFifoBuffer) (offs : Nat) : Option AVFilterBufferRef :=
  f.data.get? offs

/-- C unsigned arithmetic modulus for warning_limit. -/
def UINT_MOD : Nat := 2 ^ 32

/-- BufferSinkContext: the private state of the sink filter.  released is a
ghost log of every handle whose ownership this component has released via
avfilter_unref_buffer (the source calls it only during teardown). -/
structure BufferSinkContext where
  fifo : AVFifoBuffer
  warning_limit : Nat
  pixel_fmts : Option (List Int)
  released : List AVFilterBufferRef
  deriving DecidableEq, Repr

/-- FIFO_INIT_SIZE: initial capacity, in entries. -/
def FIFO_INIT_SIZE : Nat := 8

/-- common_init on its success path: allocate the FIFO with FIFO_INIT_SIZE
entries of room and set the warning threshold to 100.  (On allocation
failure the source returns AVERROR(ENOMEM) and no sink exists; no claim
concerns that path.)  pixel_fmts is the zero-initialized private field,
before any media-kind init touches it. -/
def common_init : BufferSinkContext :=
  { fifo := av_fifo_alloc FIFO_INIT_SIZE
    warning_limit := 100
    pixel_fmts := none
    released := [] }

/-- Result of one push (end_frame).  stored: the handle went into the FIFO;
errorLogged: the AV_LOG_ERROR message on failed growth was emitted; warned:
the AV_LOG_WARNING threshold message was emitted. -/
structure PushResult where
  ctx : BufferSinkContext
  stored : Bool
  errorLogged : Bool
  warned : Bool
  deriving DecidableEq, Repr

/-- The cache-and-warn tail of end_frame: write the frame into the FIFO,
then, if the warning threshold is nonzero and the new depth has reached it,
log a warning and multiply the threshold by 10 (unsigned arithmetic). -/
def end_frame_store (buf : BufferSinkContext) (cur_buf : AVFilterBufferRef) :
    PushResult :=
  let fifo' := av_fifo_generic_write buf.fifo cur_buf
  let buf' := { buf with fifo := fifo' }
  if buf'.warning_limit ≠ 0 ∧ av_fifo_size fifo' ≥ buf'.warning_limit then
    { ctx := { buf' with warning_limit := buf'.warning_limit * 10 % UINT_MOD }
      stored := true, errorLogged := false, warned := true }
  else
    { ctx := buf', stored := true, errorLogged := false, warned := false }

/-- end_frame: the push operation, invoked once per completed frame at the
sink's input, with cur_buf the arriving handle (inlink->cur_buf, asserted
non-null by the source).  If the FIFO has no room for one more entry it is
reallocated to twice its current fill; when that reallocation fails the
push returns after only logging an error, storing nothing and releasing
nothing.  realloc_ok is the outcome av_fifo_realloc2 would have. -/
def end_frame (buf : BufferSinkContext) (cur_buf : AVFilterBufferRef)
    (realloc_ok : Bool) : PushResult :=
  if av_fifo_space buf.fifo < 1 then
    match av_fifo_realloc2 buf.fifo (av_fifo_size buf.fifo * 2) realloc_ok with
    | none => { ctx := buf, stored := false, errorLogged := true, warned := false }
    | some fifo' => end_frame_store { buf with fifo := fifo' } cur_buf
  else
    end_frame_store buf cur_buf

/-- Outcome of one pull (av_buffersink_get_buffer_ref).  ret is the int
return value; bufref the final value of *bufref (none = NULL); buf the sink
state after the call; requested whether ff_request_frame was invoked. -/
structure PullOutcome where
  ret : Int
  bufref : Option AVFilterBufferRef
  buf : BufferSinkContext
  requested : Bool
  deriving DecidableEq, Repr

/-- The part of av_buffersink_get_buffer_ref after the optional upstream
request: re-check emptiness (returning AVERROR(EINVAL) if the queue is
still empty), then either peek at or consume the head handle. -/
def get_buffer_ref_tail (buf : BufferSinkContext) (flags : Nat)
    (requested : Bool) : PullOutcome :=
  if av_fifo_size buf.fifo = 0 then
    { ret := AVERROR EINVAL, bufref := none, buf := buf, requested := requested }
  else if flags &&& AV_BUFFERSINK_FLAG_PEEK ≠ 0 then
    { ret := 0, bufref := av_fifo_peek2 buf.fifo 0, buf := buf
      requested := requested }
  else
    let rd := av_fifo_generic_read buf.fifo
    { ret := 0, bufref := rd.1, buf := { buf with fifo := rd.2 }
      requested := requested }

/-- av_buffersink_get_buffer_ref: the pull operation.  Sets *bufref to NULL
first; on an empty queue either fails with AVERROR(EAGAIN) when the
NO_REQUEST flag is set, or invokes the upstream production step
ff_request_frame (an oracle here: it may push frames re-entrantly, so it
maps the sink state to a return code and a new state), propagating a
negative return unchanged. -/
def av_buffersink_get_buffer_ref (buf : BufferSinkContext) (flags : Nat)
    (ff_request_frame : BufferSinkContext → Int × BufferSinkContext) :
    PullOutcome :=
  if av_fifo_size buf.fifo = 0 then
    if flags &&& AV_BUFFERSINK_FLAG_NO_REQUEST ≠ 0 then
      { ret := AVERROR EAGAIN, bufref := none, buf := buf, requested := false }
    else
      let r := ff_request_frame buf
      if r.1 < 0 then
        { ret := r.1, bufref := none, buf := r.2, requested := true }
      else
        get_buffer_ref_tail r.2 flags true
  else
    get_buffer_ref_tail buf flags false

/-- av_buffersink_poll_frame: buffered entry count plus the availability
hint ff_poll_frame reports for the input link (an oracle, outside this
component). -/
def av_buffersink_poll_frame (buf : BufferSinkContext)
    (ff_poll_frame : Nat) : Nat :=
  av_fifo_size buf.fifo + ff_poll_frame

/-- Modelled from the spec: the teardown loop of common_uninit reads one
handle at a time from the FIFO while at least one whole entry remains and
releases each via avfilter_unref_buffer, in queue order. -/
def uninit_drain : List AVFilterBufferRef → List AVFilterBufferRef
  | [] => []
  | p :: rest => p :: uninit_drain rest

/-- Outcome of teardown: the full release log after the call (prior ghost
log plus the handles released by the drain loop) and whether the backing
storage was freed. -/
structure UninitResult where
  released : List AVFilterBufferRef
  fifoFreed : Bool
  deriving DecidableEq, Repr

/-- common_uninit: drain the FIFO, releasing every still-buffered handle,
then free the FIFO storage (the source guards on fifo being non-null, which
holds for every constructed sink). -/
def common_uninit (buf : BufferSinkContext) : UninitResult :=
  { released := buf.released ++ uninit_drain buf.fifo.data
    fifoFreed := true }

/-- AVBufferSinkParams: the video construction parameters, carrying the
caller's pixel format list (terminated by -1 in the source; the terminator
is implicit in the Lean list). -/
structure AVBufferSinkParams where
  pixel_fmts : List Int
  deriving DecidableEq, Repr

/-- vsink_init: video sink construction.  args models the opaque parameter
block a caller could hand in; the source's extraction of it is commented
out, so params is always NULL: the warning branch runs unconditionally and
the copy of the caller's list (ff_copy_int_list) is dead code. -/
def vsink_init (args : Option AVBufferSinkParams) : BufferSinkContext :=
  let params : Option AVBufferSinkParams := none
  match params with
  | none =>
      { common_init with pixel_fmts := none }
  | some p =>
      { common_init with pixel_fmts := some p.pixel_fmts }

/-- Result of the formats query: either ff_set_common_formats applied to
ff_make_format_list of the sink-owned list, or the negotiation default
ff_default_query_formats. -/
inductive QueryFormatsResult where
  | setCommonFormats (fmts : List Int)
  | defaultQueryFormats
  deriving DecidableEq, Repr

/-- vsink_query_formats: publish the owned pixel format list when one was
stored, otherwise fall back to the default universal set. -/
def vsink_query_formats (buf : BufferSinkContext) : QueryFormatsResult :=
  match buf.pixel_fmts with
  | some l => QueryFormatsResult.setCommonFormats l
  | none => QueryFormatsResult.defaultQueryFormats

/-- Push a whole list of frames in order, every needed reallocation
succeeding. -/
def pushAll (buf : BufferSinkContext) (frames : List AVFilterBufferRef) :
    BufferSinkContext :=
  frames.foldl (fun b f => (end_frame b f true).ctx) buf

/-- Push n copies of handle 0 one at a time from a given state, every
needed reallocation succeeding (frame identity does not matter for the
warning claims). -/
def pushNtimes (buf : BufferSinkContext) : Nat → BufferSinkContext
  | 0 => buf
  | n + 1 => (end_frame (pushNtimes buf n) 0 true).ctx

/-- Sink state after n single-frame pushes from a freshly constructed sink,
with no consumes and all reallocations succeeding. -/
def stateAfter (n : Nat) : BufferSinkContext := pushNtimes common_init n

/-- n consume-mode pulls (flags = 0) in a row; yields the list of *bufref
results in order and the final sink state. -/
def consumeN (up : BufferSinkContext → Int × BufferSinkContext)
    (buf : BufferSinkContext) :
    Nat → List (Option AVFilterBufferRef) × BufferSinkContext
  | 0 => ([], buf)
  | n + 1 =>
      let r := av_buffersink_get_buffer_ref buf 0 up
      let rest := consumeN up r.buf n
      (r.bufref :: rest.1, rest.2)

/-- n peek-mode pulls (flags = AV_BUFFERSINK_FLAG_PEEK) in a row; yields
the list of *bufref results in order and the final sink state. -/
def peekN (up : BufferSinkContext → Int × BufferSinkContext)
    (buf : BufferSinkContext) :
    Nat → List (Option AVFilterBufferRef) × BufferSinkContext
  | 0 => ([], buf)
  | n + 1 =>
      let r := av_buffersink_get_buffer_ref buf AV_BUFFERSINK_FLAG_PEEK up
      let rest := peekN up r.buf n
      (r.bufref :: rest.1, rest.2)

/-! Helper lemmas about the push operation. -/

theorem end_frame_true_eq (buf : BufferSinkContext) (f : AVFilterBufferRef) :
    end_frame buf f true =
      { ctx :=
          { fifo :=
              { data := buf.fifo.data ++ [f]
                capacity :=
                  if av_fifo_space buf.fifo < 1 then
                    max buf.fifo.capacity (av_fifo_size buf.fifo * 2)
                  else buf.fifo.capacity }
            warning_limit :=
              if buf.warning_limit ≠ 0 ∧
                  buf.fifo.data.length + 1 ≥ buf.warning_limit then
                buf.warning_limit * 10 % UINT_MOD
              else buf.warning_limit
            pixel_fmts := buf.pixel_fmts
            released := buf.released }
        stored := true
        errorLogged := false
        warned :=
          decide (buf.warning_limit ≠ 0 ∧
            buf.fifo.data.length + 1 ≥ buf.warning_limit) } := by
  by_cases hw : buf.warning_limit ≠ 0 ∧
      buf.fifo.data.length + 1 ≥ buf.warning_limit <;>
    by_cases hs : av_fifo_space buf.fifo < 1 <;>
      simp [end_frame, end_frame_store, av_fifo_realloc2, av_fifo_generic_write,
        av_fifo_size, hs, hw]

theorem pushAll_data (frames : List AVFilterBufferRef) :
    ∀ buf : BufferSinkContext,
      (pushAll buf frames).fifo.data = buf.fifo.data ++ frames := by
  induction frames with
  | nil => intro buf; simp [pushAll]
  | cons f rest ih =>
      intro buf
      have hstep : pushAll buf (f :: rest) =
          pushAll (end_frame buf f true).ctx rest := rfl
      rw [hstep, ih, end_frame_true_eq]
      simp

theorem pushAll_released (frames : List AVFilterBufferRef) :
    ∀ buf : BufferSinkContext,
      (pushAll buf frames).released = buf.released := by
  induction frames with
  | nil => intro buf; simp [pushAll]
  | cons f rest ih =>
      intro buf
      have hstep : pushAll buf (f :: rest) =
          pushAll (end_frame buf f true).ctx rest := rfl
      rw [hstep, ih, end_frame_true_eq]

/-! Helper lemmas about single pulls. -/

theorem get_buffer_ref_consume (buf : BufferSinkContext)
    (up : BufferSinkContext → Int × BufferSinkContext)
    (x : AVFilterBufferRef) (xs : List AVFilterBufferRef)
    (h : buf.fifo.data = x :: xs) :
    av_buffersink_get_buffer_ref buf 0 up =
      { ret := 0, bufref := some x
        buf := { buf with fifo := { buf.fifo with data := xs } }
        requested := false } := by
  simp [av_buffersink_get_buffer_ref, get_buffer_ref_tail, av_fifo_size,
    av_fifo_generic_read, AV_BUFFERSINK_FLAG_PEEK, h]

theorem get_buffer_ref_peek (buf : BufferSinkContext)
    (up : BufferSinkContext → Int × BufferSinkContext)
    (x : AVFilterBufferRef) (xs : List AVFilterBufferRef)
    (h : buf.fifo.data = x :: xs) :
    av_buffersink_get_buffer_ref buf AV_BUFFERSINK_FLAG_PEEK up =
      { ret := 0, bufref := some x, buf := buf, requested := false } := by
  simp [av_buffersink_get_buffer_ref, get_buffer_ref_tail, av_fifo_size,
    av_fifo_peek2, AV_BUFFERSINK_FLAG_PEEK, h]

theorem consumeN_spec (up : BufferSinkContext → Int × BufferSinkContext) :
    ∀ (n : Nat) (buf : BufferSinkContext), n ≤ buf.fifo.data.length →
      consumeN up buf n =
        ((buf.fifo.data.take n).map some,
         { buf with fifo := { buf.fifo with data := buf.fifo.data.drop n } }) := by
  intro n
  induction n with
  | zero => intro buf _; simp [consumeN]
  | succ n ih =>
      intro buf h
      rcases hd : buf.fifo.data with _ | ⟨x, xs⟩
      · rw [hd] at h; simp at h
      · have hlen : n ≤ xs.length := by
          rw [hd] at h; simpa using Nat.le_of_succ_le_succ h
        have hrec := ih { buf with fifo := { buf.fifo with data := xs } } hlen
        simp only [consumeN, get_buffer_ref_consume buf up x xs hd, hrec, hd]
        simp

/-! The claims. -/

/-- C1: strict FIFO order.  Pushing any sequence of N frame handles through
end_frame into a freshly constructed sink and then performing N
consume-mode pulls (av_buffersink_get_buffer_ref with flags = 0) with no
interleaving returns exactly the pushed handles, in push order. -/
theorem fifo_strict_order (frames : List AVFilterBufferRef)
    (up : BufferSinkContext → Int × BufferSinkContext) :
    (consumeN up (pushAll common_init frames) frames.length).1 =
      frames.map some := by
  have hdata : (pushAll common_init frames).fifo.data = frames := by
    rw [pushAll_data]; rfl
  rw [consumeN_spec up frames.length _ (by rw [hdata])]
  simp [hdata]

/-- C2 counterexample: the claim that a sink constructed with an explicit
pixel format list publishes exactly that list is false.  vsink_init ignores
its arguments (the opaque-parameter extraction is commented out in the
source, so params is always NULL): constructing with the list [0] still
yields the default universal query, not the supplied list. -/
theorem formats_query_ignores_params_counterexample :
    vsink_query_formats (vsink_init (some { pixel_fmts := [0] })) =
      QueryFormatsResult.defaultQueryFormats ∧
    vsink_query_formats (vsink_init (some { pixel_fmts := [0] })) ≠
      QueryFormatsResult.setCommonFormats [0] := by
  decide

/-- C2 (amended): for every construction of the video sink, whatever
parameters are supplied, the sink stores no format list (the parameter
parsing is commented out in the source) and the formats query always falls
back to the default universal set. -/
theorem formats_query_always_default (args : Option AVBufferSinkParams) :
    (vsink_init args).pixel_fmts = none ∧
    vsink_query_formats (vsink_init args) =
      QueryFormatsResult.defaultQueryFormats := by
  exact ⟨rfl, rfl⟩

/-- C3: would-block contract.  On an empty queue, a pull whose flags have
the NO_REQUEST bit set returns AVERROR(EAGAIN) at once, never invokes the
upstream production step, and leaves the sink state unchanged. -/
theorem pull_no_request_eagain (buf : BufferSinkContext) (flags : Nat)
    (up : BufferSinkContext → Int × BufferSinkContext)
    (he : buf.fifo.data = [])
    (hf : flags &&& AV_BUFFERSINK_FLAG_NO_REQUEST ≠ 0) :
    av_buffersink_get_buffer_ref buf flags up =
      { ret := AVERROR EAGAIN, bufref := none, buf := buf
        requested := false } := by
  simp [av_buffersink_get_buffer_ref, av_fifo_size, he, hf]

theorem pull_no_request_eagain_witness :
    av_buffersink_get_buffer_ref common_init AV_BUFFERSINK_FLAG_NO_REQUEST
        (fun b => (0, b)) =
      { ret := AVERROR EAGAIN, bufref := none, buf := common_init
        requested := false } :=
  pull_no_request_eagain common_init AV_BUFFERSINK_FLAG_NO_REQUEST
    (fun b => (0, b)) rfl (by decide)

/-- C4: failed-growth atomicity.  A push into a full queue (no room for one
more entry) whose reallocation fails stores nothing, leaves the whole sink
state unchanged, only logs an error, and releases no handle (the release
log is untouched). -/
theorem push_failed_growth_atomic (buf : BufferSinkContext)
    (f : AVFilterBufferRef) (hfull : av_fifo_space buf.fifo < 1) :
    end_frame buf f false =
      { ctx := buf, stored := false, errorLogged := true, warned := false } ∧
    (end_frame buf f false).ctx.released = buf.released := by
  have h : end_frame buf f false =
      { ctx := buf, stored := false, errorLogged := true, warned := false } := by
    simp [end_frame, av_fifo_realloc2, hfull]
  exact ⟨h, by rw [h]⟩

theorem push_failed_growth_atomic_witness :
    av_fifo_space (AVFifoBuffer.mk [5] 1) < 1 ∧
    end_frame ⟨⟨[5], 1⟩, 100, none, []⟩ 9 false =
      { ctx := ⟨⟨[5], 1⟩, 100, none, []⟩, stored := false
        errorLogged := true, warned := false } ∧
    (end_frame ⟨⟨[5], 1⟩, 100, none, []⟩ 9 false).ctx.released = [] :=
  ⟨by decide, push_failed_growth_atomic ⟨⟨[5], 1⟩, 100, none, []⟩ 9 (by decide)⟩

/-- C5: empty-after-request error.  On an empty queue with upstream
requests allowed, an error returned by the upstream production step is
propagated to the caller unchanged; and when the upstream step reports
success but the queue is still empty, the pull returns AVERROR(EINVAL),
which is distinct from the would-block code AVERROR(EAGAIN). -/
theorem pull_empty_after_request (buf : BufferSinkContext) (flags : Nat)
    (up : BufferSinkContext → Int × BufferSinkContext)
    (he : buf.fifo.data = [])
    (hf : flags &&& AV_BUFFERSINK_FLAG_NO_REQUEST = 0) :
    ((up buf).1 < 0 →
      av_buffersink_get_buffer_ref buf flags up =
        { ret := (up buf).1, bufref := none, buf := (up buf).2
          requested := true }) ∧
    (0 ≤ (up buf).1 → ((up buf).2).fifo.data = [] →
      (av_buffersink_get_buffer_ref buf flags up).ret = AVERROR EINVAL ∧
      AVERROR EINVAL ≠ AVERROR EAGAIN) := by
  constructor
  · intro hlt
    simp [av_buffersink_get_buffer_ref, av_fifo_size, he, hf, hlt]
  · intro hge he2
    refine ⟨?_, by decide⟩
    simp [av_buffersink_get_buffer_ref, get_buffer_ref_tail, av_fifo_size,
      he, hf, he2, not_lt.mpr hge]

theorem pull_empty_after_request_witness :
    (av_buffersink_get_buffer_ref common_init 0 (fun b => (-99, b)) =
      { ret := -99, bufref := none, buf := common_init, requested := true }) ∧
    ((av_buffersink_get_buffer_ref common_init 0 (fun b => (0, b))).ret =
        AVERROR EINVAL ∧
      AVERROR EINVAL ≠ AVERROR EAGAIN) :=
  ⟨(pull_empty_after_request common_init 0 (fun b => (-99, b)) rfl
      (by decide)).1 (by decide),
   (pull_empty_after_request common_init 0 (fun b => (0, b)) rfl
      (by decide)).2 (by decide) rfl⟩

/-- C6: peek idempotence.  On a queue whose oldest handle is x, any number
of repeated peek-mode pulls with no intervening consume all return x and
leave the sink state (hence queue depth and contents) unchanged. -/
theorem peek_idempotent (buf : BufferSinkContext)
    (up : BufferSinkContext → Int × BufferSinkContext)
    (x : AVFilterBufferRef) (xs : List AVFilterBufferRef)
    (h : buf.fifo.data = x :: xs) :
    ∀ n : Nat, peekN up buf n = (List.replicate n (some x), buf) := by
  intro n
  induction n with
  | zero => rfl
  | succ n ih =>
      simp only [peekN, get_buffer_ref_peek buf up x xs h, ih,
        List.replicate_succ]

theorem peek_idempotent_witness :
    peekN (fun b => (0, b)) ⟨⟨[4, 5], 8⟩, 100, none, []⟩ 3 =
      (List.replicate 3 (some 4), ⟨⟨[4, 5], 8⟩, 100, none, []⟩) :=
  peek_idempotent ⟨⟨[4, 5], 8⟩, 100, none, []⟩ (fun b => (0, b)) 4 [5] rfl 3

/-! Warning threshold evolution under repeated pushes. -/

theorem pushNtimes_len : ∀ n : Nat, (stateAfter n).fifo.data.length = n := by
  intro n
  induction n with
  | zero => rfl
  | succ n ih =>
      show ((end_frame (stateAfter n) 0 true).ctx).fifo.data.length = n + 1
      rw [end_frame_true_eq]
      simp [ih]

theorem warning_limit_before_100 :
    ∀ m : Nat, m ≤ 99 → (stateAfter m).warning_limit = 100 := by
  intro m
  induction m with
  | zero => intro _; rfl
  | succ m ih =>
      intro hm
      show ((end_frame (stateAfter m) 0 true).ctx).warning_limit = 100
      rw [end_frame_true_eq]
      simp only [pushNtimes_len, ih (by omega)]
      rw [if_neg (by omega)]

theorem warning_limit_100_to_999 :
    ∀ m : Nat, 100 ≤ m → m ≤ 999 → (stateAfter m).warning_limit = 1000 := by
  intro m
  induction m with
  | zero => intro h _; omega
  | succ m ih =>
      intro h1 h2
      show ((end_frame (stateAfter m) 0 true).ctx).warning_limit = 1000
      rw [end_frame_true_eq]
      rcases Nat.lt_or_ge m 100 with hm | hm
      · have hm99 : m = 99 := by omega
        subst hm99
        simp only [pushNtimes_len, warning_limit_before_100 99 (by omega)]
        rw [if_pos (by omega)]
        norm_num [UINT_MOD]
      · simp only [pushNtimes_len, ih hm (by omega)]
        rw [if_neg (by omega)]

theorem warning_limit_1000_to_9999 :
    ∀ m : Nat, 1000 ≤ m → m ≤ 9999 → (stateAfter m).warning_limit = 10000 := by
  intro m
  induction m with
  | zero => intro h _; omega
  | succ m ih =>
      intro h1 h2
      show ((end_frame (stateAfter m) 0 true).ctx).warning_limit = 10000
      rw [end_frame_true_eq]
      rcases Nat.lt_or_ge m 1000 with hm | hm
      · have hm999 : m = 999 := by omega
        subst hm999
        simp only [pushNtimes_len, warning_limit_100_to_999 999 (by omega) (by omega)]
        rw [if_pos (by omega)]
        norm_num [UINT_MOD]
      · simp only [pushNtimes_len, ih hm (by omega)]
        rw [if_neg (by omega)]

/-- C7: warning escalation.  Starting from a fresh sink (default threshold
100), pushing handles one at a time with no consumes makes the push that
brings the depth to m + 1 emit a warning exactly when that depth is 100 or
1000 (for all depths up to 1999): one warning at 100, the next only at
1000, none in between. -/
theorem warning_escalation (m : Nat) (hm : m < 1999) :
    ((end_frame (stateAfter m) 0 true).warned = true) ↔
      (m + 1 = 100 ∨ m + 1 = 1000) := by
  rw [end_frame_true_eq]
  simp only [decide_eq_true_eq, pushNtimes_len]
  rcases Nat.lt_or_ge m 100 with h1 | h1
  · rw [warning_limit_before_100 m (by omega)]; omega
  · rcases Nat.lt_or_ge m 1000 with h2 | h2
    · rw [warning_limit_100_to_999 m h1 (by omega)]; omega
    · rw [warning_limit_1000_to_9999 m h2 (by omega)]; omega

theorem warning_escalation_witness :
    (99 < 1999) ∧
    (((end_frame (stateAfter 99) 0 true).warned = true) ↔
      (99 + 1 = 100 ∨ 99 + 1 = 1000)) :=
  ⟨by norm_num, warning_escalation 99 (by norm_num)⟩

/-! Teardown. -/

theorem uninit_drain_eq : ∀ l : List AVFilterBufferRef, uninit_drain l = l := by
  intro l
  induction l with
  | nil => rfl
  | cons p rest ih => simp [uninit_drain, ih]

/-- C8: teardown releases ownership.  Constructing a sink, pushing any M
handles and tearing down releases exactly the M still-buffered handles,
each exactly once (the release log equals the pushed sequence, so every
handle's multiplicity is preserved), and then frees the backing storage. -/
theorem teardown_releases_all (frames : List AVFilterBufferRef) :
    (common_uninit (pushAll common_init frames)).released = frames ∧
    (common_uninit (pushAll common_init frames)).fifoFreed = true ∧
    ∀ h : AVFilterBufferRef,
      ((common_uninit (pushAll common_init frames)).released.count h =
        frames.count h) := by
  have hr : (common_uninit (pushAll common_init frames)).released = frames := by
    simp [common_uninit, uninit_drain_eq, pushAll_released, pushAll_data]
    rfl
  exact ⟨hr, rfl, fun h => by rw [hr]⟩

/-- C9: depth accounting.  After K pushes and J ≤ K consume-pulls from a
fresh sink, the depth query returns exactly (K − J) plus the availability
hint the upstream ff_poll_frame oracle reports. -/
theorem depth_accounting (frames : List AVFilterBufferRef) (J : Nat)
    (hint : Nat) (up : BufferSinkContext → Int × BufferSinkContext)
    (hJ : J ≤ frames.length) :
    av_buffersink_poll_frame
        (consumeN up (pushAll common_init frames) J).2 hint =
      (frames.length - J) + hint := by
  have hdata : (pushAll common_init frames).fifo.data = frames := by
    rw [pushAll_data]; rfl
  rw [consumeN_spec up J _ (by rw [hdata]; exact hJ)]
  simp [av_buffersink_poll_frame, av_fifo_size, hdata]

theorem depth_accounting_witness :
    (2 ≤ [4, 5, 6].length) ∧
    av_buffersink_poll_frame
        (consumeN (fun b => (0, b)) (pushAll common_init [4, 5, 6]) 2).2 7 =
      ([4, 5, 6].length - 2) + 7 :=
  ⟨by decide, depth_accounting [4, 5, 6] 2 7 (fun b => (0, b)) (by decide)⟩

/-! Null-on-error postcondition. -/

theorem get_buffer_ref_tail_bufref (buf : BufferSinkContext) (flags : Nat)
    (requested : Bool) :
    ((get_buffer_ref_tail buf flags requested).ret ≠ 0 →
      (get_buffer_ref_tail buf flags requested).bufref = none) ∧
    ((get_buffer_ref_tail buf flags requested).ret = 0 →
      (get_buffer_ref_tail buf flags requested).bufref.isSome = true) := by
  rcases hd : buf.fifo.data with _ | ⟨x, xs⟩
  · constructor
    · intro _; simp [get_buffer_ref_tail, av_fifo_size, hd]
    · intro h0
      simp [get_buffer_ref_tail, av_fifo_size, hd, AVERROR, EINVAL] at h0
  · by_cases hp : flags &&& AV_BUFFERSINK_FLAG_PEEK ≠ 0
    · constructor
      · intro h0
        simp [get_buffer_ref_tail, av_fifo_size, hd, hp] at h0
      · intro _
        simp [get_buffer_ref_tail, av_fifo_size, av_fifo_peek2, hd, hp]
    · constructor
      · intro h0
        simp [get_buffer_ref_tail, av_fifo_size, hd, hp] at h0
      · intro _
        simp [get_buffer_ref_tail, av_fifo_size, av_fifo_generic_read, hd, hp]

/-- C10: null-on-error postcondition.  For every pull, in every state, with
every flag combination and every upstream oracle, the output handle *bufref
is NULL whenever the call returns an error (nonzero code: would-block,
empty-after-request, or a propagated upstream error), and it is a non-null
handle exactly when the call returns success (0). -/
theorem pull_null_on_error (buf : BufferSinkContext) (flags : Nat)
    (up : BufferSinkContext → Int × BufferSinkContext) :
    ((av_buffersink_get_buffer_ref buf flags up).ret ≠ 0 →
      (av_buffersink_get_buffer_ref buf flags up).bufref = none) ∧
    ((av_buffersink_get_buffer_ref buf flags up).ret = 0 →
      (av_buffersink_get_buffer_ref buf flags up).bufref.isSome = true) := by
  unfold av_buffersink_get_buffer_ref
  by_cases hsz : av_fifo_size buf.fifo = 0
  · by_cases hnr : flags &&& AV_BUFFERSINK_FLAG_NO_REQUEST ≠ 0
    · constructor
      · intro _
        rw [if_pos hsz, if_pos hnr]
      · intro h0
        rw [if_pos hsz, if_pos hnr] at h0
        simp [AVERROR, EAGAIN] at h0
    · by_cases hup : (up buf).1 < 0
      · constructor
        · intro _
          rw [if_pos hsz, if_neg hnr, if_pos hup]
        · intro h0
          rw [if_pos hsz, if_neg hnr, if_pos hup] at h0
          simp only at h0
          omega
      · have htail := get_buffer_ref_tail_bufref (up buf).2 flags true
        constructor
        · intro h0
          rw [if_pos hsz, if_neg hnr, if_neg hup] at h0 ⊢
          exact htail.1 h0
        · intro h0
          rw [if_pos hsz, if_neg hnr, if_neg hup] at h0 ⊢
          exact htail.2 h0
  · have htail := get_buffer_ref_tail_bufref buf flags false
    constructor
    · intro h0
      rw [if_neg hsz] at h0 ⊢
      exact htail.1 h0
    · intro h0
      rw [if_neg hsz] at h0 ⊢
      exact htail.2 h0

theorem pull_null_on_error_witness :
    (av_buffersink_get_buffer_ref common_init AV_BUFFERSINK_FLAG_NO_REQUEST
        (fun b => (0, b))).bufref = none ∧
    (av_buffersink_get_buffer_ref (pushAll common_init [4]) 0
        (fun b => (0, b))).bufref.isSome = true :=
  ⟨(pull_null_on_error common_init AV_BUFFERSINK_FLAG_NO_REQUEST
      (fun b => (0, b))).1 (by decide),
   (pull_null_on_error (pushAll common_init [4]) 0
      (fun b => (0, b))).2 (by decide)⟩

end SinkBuffer
